import Mathlib

/-!
Verification of the field-selection and query-specification subsystem of the
`below dump` command (`resctl/below/src/dump/command.rs`).

The `make_option!` macro in the source generates, for each domain, an enum of
field tags together with a `FromStr` implementation that lowercases the input
token and matches it against the fixed token table; on failure it bails with
the message `Fail to parse {token}`.  We embed each generated enum, its token
table, and the generated `from_str` function.  The resolution / validation
logic that consumes these enums lives outside the file at hand; where a
property concerns it, the corresponding definition is modelled from the spec
and marked as such in its doc comment.
-/

deriving instance DecidableEq for Except

namespace BelowDump

/-- Rust's `str::to_lowercase`, modelled per character with `Char.toLower`
(ASCII letters; all table tokens are ASCII). -/
def toLowerStr (s : String) : String := ⟨s.data.map Char.toLower⟩

/-- Rust's `str::to_uppercase`, modelled per character with `Char.toUpper`. -/
def toUpperStr (s : String) : String := ⟨s.data.map Char.toUpper⟩

/-- Field tags of the System domain, from `make_option!(SysField {...})`. -/
inductive SysField where
  | Timestamp | Datetime | Cpu | Mem | Io | Hostname
  | CpuUsagePct | CpuUserPct | CpuSystemPct
  | MemTotal | MemFree | MemAnon | MemFile | HpTotal | HpFree
  | IoRead | IoWrite
deriving DecidableEq, Fintype

/-- Token table of the System domain, in source order. -/
def sysFieldTable : List (String × SysField) :=
  [("timestamp", .Timestamp), ("datetime", .Datetime), ("cpu", .Cpu),
   ("mem", .Mem), ("io", .Io), ("hostname", .Hostname),
   ("cpu_usage", .CpuUsagePct), ("cpu_user", .CpuUserPct),
   ("cpu_system", .CpuSystemPct), ("mem_total", .MemTotal),
   ("mem_free", .MemFree), ("mem_anon", .MemAnon), ("mem_file", .MemFile),
   ("huge_page_total", .HpTotal), ("huge_page_free", .HpFree),
   ("io_read", .IoRead), ("io_write", .IoWrite)]

/-- `FromStr for SysField`: lowercase the input, first match in the table,
otherwise `bail!("Fail to parse {}", opt)`. -/
def SysField.from_str (opt : String) : Except String SysField :=
  match sysFieldTable.lookup (toLowerStr opt) with
  | some f => .ok f
  | none => .error ("Fail to parse " ++ opt)

/-- Field tags of the Process domain, from `make_option!(ProcField {...})`. -/
inductive ProcField where
  | Timestamp | Datetime | Io | Mem | Cpu
  | Pid | Ppid | Comm | State | Uptime | Cgroup
  | CpuUserPct | CpuSysPct | CpuNumThreads | CpuTotalPct
  | MemRssBytes | MemMinor | MemMajor
  | IoRead | IoWrite | IoTotal
deriving DecidableEq, Fintype

/-- Token table of the Process domain, in source order. -/
def procFieldTable : List (String × ProcField) :=
  [("timestamp", .Timestamp), ("datetime", .Datetime), ("io", .Io),
   ("mem", .Mem), ("cpu", .Cpu), ("pid", .Pid), ("ppid", .Ppid),
   ("comm", .Comm), ("state", .State), ("uptime", .Uptime),
   ("cgroup", .Cgroup), ("cpu_user", .CpuUserPct), ("cpu_sys", .CpuSysPct),
   ("cpu_threads", .CpuNumThreads), ("cpu_total", .CpuTotalPct),
   ("mem_rss", .MemRssBytes), ("mem_minorfaults", .MemMinor),
   ("mem_majorfaults", .MemMajor), ("io_read", .IoRead),
   ("io_write", .IoWrite), ("io_total", .IoTotal)]

/-- `FromStr for ProcField`. -/
def ProcField.from_str (opt : String) : Except String ProcField :=
  match procFieldTable.lookup (toLowerStr opt) with
  | some f => .ok f
  | none => .error ("Fail to parse " ++ opt)

/-- Field tags of the Cgroup domain, from `make_option!(CgroupField {...})`. -/
inductive CgroupField where
  | Timestamp | Datetime | Cpu | Mem | Io | Pressure
  | Name | FullPath
  | CpuUsage | CpuUser | CpuSystem | CpuNrPeriods | CpuNrThrottled
  | CpuThrottled
  | MemTotal | MemSwap | MemAnon | MemFile | MemKernel | MemSlab | MemSock
  | MemShem | MemFileMapped | MemFileDirty | MemFileWriteBack | MemAnonThp
  | MemInactiveAnon | MemActiveAnon | MemInactiveFile | MemActiveFile
  | MemUnevictable | MemSlabReclaimable | MemSlabUnreclaimable
  | Pgfault | MemPgmajfault | MemWorkingsetRefault | MemWorkingsetActivate
  | MemWorkingsetNodereclaim | MemPgrefill | MemPgscan | MemPgsteal
  | MemPgactivate | MemPgdeactivate | MemPglazyfree | MemPglazyfreed
  | MemTHPFaultAlloc | MemTHPCollapseAlloc
  | IoRead | IoWrite | IoRiops | IoWiops | IoDbps | IoDiops | IoTotal
  | CpuSome | IoSome | IoFull | MemFull | MemSome
deriving DecidableEq, Fintype

/-- Token table of the Cgroup domain, in source order. -/
def cgroupFieldTable : List (String × CgroupField) :=
  [("timestamp", .Timestamp), ("datetime", .Datetime), ("cpu", .Cpu),
   ("mem", .Mem), ("io", .Io), ("pressure", .Pressure), ("name", .Name),
   ("full_path", .FullPath), ("cpu_usage", .CpuUsage), ("cpu_user", .CpuUser),
   ("cpu_system", .CpuSystem), ("cpu_nr_periods", .CpuNrPeriods),
   ("cpu_nr_throttled", .CpuNrThrottled), ("cpu_throttled", .CpuThrottled),
   ("mem_total", .MemTotal), ("mem_swap", .MemSwap), ("mem_anon", .MemAnon),
   ("mem_file", .MemFile), ("mem_kernel", .MemKernel), ("mem_slab", .MemSlab),
   ("mem_sock", .MemSock), ("mem_shmem", .MemShem),
   ("mem_file_mapped", .MemFileMapped), ("mem_file_dirty", .MemFileDirty),
   ("mem_file_writeback", .MemFileWriteBack), ("mem_anon_thp", .MemAnonThp),
   ("mem_inactive_anon", .MemInactiveAnon),
   ("mem_active_anon", .MemActiveAnon),
   ("mem_inactive_file", .MemInactiveFile),
   ("mem_active_file", .MemActiveFile),
   ("mem_unevictable", .MemUnevictable),
   ("mem_slab_reclaimable", .MemSlabReclaimable),
   ("mem_slab_unreclaimable", .MemSlabUnreclaimable),
   ("mem_pgfault", .Pgfault), ("mem_pgmajfault", .MemPgmajfault),
   ("mem_workingset_refault", .MemWorkingsetRefault),
   ("mem_workingset_activate", .MemWorkingsetActivate),
   ("mem_workingset_nodereclaim", .MemWorkingsetNodereclaim),
   ("mem_pgrefill", .MemPgrefill), ("mem_pgscan", .MemPgscan),
   ("mem_pgsteal", .MemPgsteal), ("mem_pgactivate", .MemPgactivate),
   ("mem_pgdeactivate", .MemPgdeactivate),
   ("mem_pglazyfree", .MemPglazyfree), ("mem_pglazyfreed", .MemPglazyfreed),
   ("mem_thp_fault_alloc", .MemTHPFaultAlloc),
   ("mem_thp_collapse_alloc", .MemTHPCollapseAlloc),
   ("io_read", .IoRead), ("io_write", .IoWrite), ("io_rios", .IoRiops),
   ("io_wios", .IoWiops), ("io_dbps", .IoDbps), ("io_diops", .IoDiops),
   ("io_total", .IoTotal), ("pressure_cpu_some", .CpuSome),
   ("pressure_io_some", .IoSome), ("pressure_io_full", .IoFull),
   ("pressure_mem_full", .MemFull), ("pressure_mem_some", .MemSome)]

/-- `FromStr for CgroupField`. -/
def CgroupField.from_str (opt : String) : Except String CgroupField :=
  match cgroupFieldTable.lookup (toLowerStr opt) with
  | some f => .ok f
  | none => .error ("Fail to parse " ++ opt)

/-- Output formats, from `make_option!(OutputFormat {...})`. -/
inductive OutputFormat where
  | Raw | Csv | Json | KeyVal
deriving DecidableEq, Fintype

/-- Token table of the output formats, in source order. -/
def outputFormatTable : List (String × OutputFormat) :=
  [("raw", .Raw), ("csv", .Csv), ("json", .Json), ("kv", .KeyVal)]

/-- `FromStr for OutputFormat`. -/
def OutputFormat.from_str (opt : String) : Except String OutputFormat :=
  match outputFormatTable.lookup (toLowerStr opt) with
  | some f => .ok f
  | none => .error ("Fail to parse " ++ opt)

/-- A compiled regular expression; only the pattern string matters to this
core (matching happens in the external rendering collaborator). -/
structure Regex where
  pattern : String
deriving DecidableEq

/-- The `GeneralOpt` struct of the source, field for field (`end` is a Lean
keyword, so that field is called `end_`; `top: u32` is modelled as `Nat`). -/
structure GeneralOpt where
  default : Bool
  everything : Bool
  detail : Bool
  begin : String
  end_ : Option String
  filter : Option Regex
  sort : Bool
  rsort : Bool
  top : Nat
  repeat_title : Option Nat
  output_format : Option OutputFormat
  output : Option String
deriving DecidableEq

/-- The three entity domains. -/
inductive Domain where
  | System | Process | Cgroup
deriving DecidableEq

/-- Display name of a domain. -/
def domainName : Domain → String
  | .System => "system"
  | .Process => "process"
  | .Cgroup => "cgroup"

/-- The full canonical field list of the System domain: every `SysField`
known to the registry, in table order. -/
def SysField.all : List SysField := sysFieldTable.map Prod.snd

/-- The full canonical field list of the Process domain. -/
def ProcField.all : List ProcField := procFieldTable.map Prod.snd

/-- The full canonical field list of the Cgroup domain. -/
def CgroupField.all : List CgroupField := cgroupFieldTable.map Prod.snd

/-- Modelled from the spec: the aggregate expansion table of the System
domain (the expansion code is outside the file at hand; the bundles are the
ones the source's doc comment for `dump system` lists: `cpu` = [cpu_usage,
cpu_user, cpu_system]; `mem` = [mem_total, mem_free] plus [mem_anon,
mem_file, huge_page_total, huge_page_free] under `--detail`; `io` =
[io_read, io_write]). -/
def sysGroupTable (detail : Bool) : List (String × List SysField) :=
  [("cpu", [.CpuUsagePct, .CpuUserPct, .CpuSystemPct]),
   ("mem", [.MemTotal, .MemFree] ++
      (if detail then [.MemAnon, .MemFile, .HpTotal, .HpFree] else [])),
   ("io", [.IoRead, .IoWrite])]

/-- Modelled from the spec: `expand(System, group_name, detail)`. -/
def sysExpand (tok : String) (detail : Bool) : Option (List SysField) :=
  (sysGroupTable detail).lookup (toLowerStr tok)

/-- Modelled from the spec: the aggregate expansion table of the Process
domain (`cpu` = [cpu_total] plus [cpu_user, cpu_sys, cpu_threads] under
`--detail`; `mem` = [mem_rss] plus [mem_minorfaults, mem_majorfaults];
`io` = [io_read, io_write] plus [io_total]). -/
def procGroupTable (detail : Bool) : List (String × List ProcField) :=
  [("cpu", [.CpuTotalPct] ++
      (if detail then [.CpuUserPct, .CpuSysPct, .CpuNumThreads] else [])),
   ("mem", [.MemRssBytes] ++ (if detail then [.MemMinor, .MemMajor] else [])),
   ("io", [.IoRead, .IoWrite] ++ (if detail then [.IoTotal] else []))]

/-- Modelled from the spec: `expand(Process, group_name, detail)`. -/
def procExpand (tok : String) (detail : Bool) : Option (List ProcField) :=
  (procGroupTable detail).lookup (toLowerStr tok)

/-- Modelled from the spec: the aggregate expansion table of the Cgroup
domain (`cpu` = [cpu_usage] plus the remaining cpu_* fields under
`--detail`; `mem` = [mem_total] plus the remaining mem_* fields; `io` =
[io_read, io_write] plus the remaining io_* fields; `pressure` =
[pressure_cpu_some, pressure_mem_full, pressure_io_full] plus the remaining
pressure_* fields). -/
def cgroupGroupTable (detail : Bool) : List (String × List CgroupField) :=
  [("cpu", [.CpuUsage] ++
      (if detail then
        [.CpuUser, .CpuSystem, .CpuNrPeriods, .CpuNrThrottled, .CpuThrottled]
       else [])),
   ("mem", [.MemTotal] ++
      (if detail then
        [.MemSwap, .MemAnon, .MemFile, .MemKernel, .MemSlab, .MemSock,
         .MemShem, .MemFileMapped, .MemFileDirty, .MemFileWriteBack,
         .MemAnonThp, .MemInactiveAnon, .MemActiveAnon, .MemInactiveFile,
         .MemActiveFile, .MemUnevictable, .MemSlabReclaimable,
         .MemSlabUnreclaimable, .Pgfault, .MemPgmajfault,
         .MemWorkingsetRefault, .MemWorkingsetActivate,
         .MemWorkingsetNodereclaim, .MemPgrefill, .MemPgscan, .MemPgsteal,
         .MemPgactivate, .MemPgdeactivate, .MemPglazyfree, .MemPglazyfreed,
         .MemTHPFaultAlloc, .MemTHPCollapseAlloc]
       else [])),
   ("io", [.IoRead, .IoWrite] ++
      (if detail then [.IoRiops, .IoWiops, .IoDbps, .IoDiops, .IoTotal]
       else [])),
   ("pressure", [.CpuSome, .MemFull, .IoFull] ++
      (if detail then [.IoSome, .MemSome] else []))]

/-- Modelled from the spec: `expand(Cgroup, group_name, detail)`. -/
def cgroupExpand (tok : String) (detail : Bool) : Option (List CgroupField) :=
  (cgroupGroupTable detail).lookup (toLowerStr tok)

/-- Modelled from the spec: the token walk of `resolve_fields` for the
System domain — for each token, first try aggregate-group expansion at the
requested detail level; otherwise resolve it as a single field via the
registry; concatenate in input order without deduplication; propagate the
first failing token's registry error. -/
def sysResolveTokens (detail : Bool) : List String → Except String (List SysField)
  | [] => .ok []
  | t :: ts =>
    match sysExpand t detail with
    | some fs => (sysResolveTokens detail ts).map (fun rest => fs ++ rest)
    | none =>
      match SysField.from_str t with
      | .ok f => (sysResolveTokens detail ts).map (fun rest => f :: rest)
      | .error e => .error e

/-- Modelled from the spec: the token walk of `resolve_fields` for the
Process domain. -/
def procResolveTokens (detail : Bool) : List String → Except String (List ProcField)
  | [] => .ok []
  | t :: ts =>
    match procExpand t detail with
    | some fs => (procResolveTokens detail ts).map (fun rest => fs ++ rest)
    | none =>
      match ProcField.from_str t with
      | .ok f => (procResolveTokens detail ts).map (fun rest => f :: rest)
      | .error e => .error e

/-- Modelled from the spec: the token walk of `resolve_fields` for the
Cgroup domain. -/
def cgroupResolveTokens (detail : Bool) : List String → Except String (List CgroupField)
  | [] => .ok []
  | t :: ts =>
    match cgroupExpand t detail with
    | some fs => (cgroupResolveTokens detail ts).map (fun rest => fs ++ rest)
    | none =>
      match CgroupField.from_str t with
      | .ok f => (cgroupResolveTokens detail ts).map (fun rest => f :: rest)
      | .error e => .error e

/-- Modelled from the spec: the default field list of the System domain
(timestamp, datetime, hostname, then the cpu, mem and io bundles at the
requested detail level). -/
def sysDefaultFields (detail : Bool) : List SysField :=
  [.Timestamp, .Datetime, .Hostname]
    ++ [.CpuUsagePct, .CpuUserPct, .CpuSystemPct]
    ++ ([.MemTotal, .MemFree] ++
        (if detail then [.MemAnon, .MemFile, .HpTotal, .HpFree] else []))
    ++ [.IoRead, .IoWrite]

/-- Modelled from the spec: the default field list of the Process domain
(pid, comm, then the cpu, mem and io bundles). -/
def procDefaultFields (detail : Bool) : List ProcField :=
  [.Pid, .Comm]
    ++ ([.CpuTotalPct] ++
        (if detail then [.CpuUserPct, .CpuSysPct, .CpuNumThreads] else []))
    ++ ([.MemRssBytes] ++ (if detail then [.MemMinor, .MemMajor] else []))
    ++ ([.IoRead, .IoWrite] ++ (if detail then [.IoTotal] else []))

/-- Modelled from the spec: the default field list of the Cgroup domain
(name, then the cpu, mem, io and pressure bundles). -/
def cgroupDefaultFields (detail : Bool) : List CgroupField :=
  [.Name]
    ++ (cgroupGroupTable detail).foldr (fun p acc => p.2 ++ acc) []

/-- Modelled from the spec: `resolve_fields(System, tokens, flags)` with the
layered precedence `everything` over `default` over the explicit tokens. -/
def sysResolveFields (tokens : List String) (o : GeneralOpt) :
    Except String (List SysField) :=
  if o.everything then .ok SysField.all
  else if o.default then .ok (sysDefaultFields o.detail)
  else sysResolveTokens o.detail tokens

/-- Modelled from the spec: `resolve_fields(Process, tokens, flags)`. -/
def procResolveFields (tokens : List String) (o : GeneralOpt) :
    Except String (List ProcField) :=
  if o.everything then .ok ProcField.all
  else if o.default then .ok (procDefaultFields o.detail)
  else procResolveTokens o.detail tokens

/-- Modelled from the spec: `resolve_fields(Cgroup, tokens, flags)`. -/
def cgroupResolveFields (tokens : List String) (o : GeneralOpt) :
    Except String (List CgroupField) :=
  if o.everything then .ok CgroupField.all
  else if o.default then .ok (cgroupDefaultFields o.detail)
  else cgroupResolveTokens o.detail tokens

/-- The error taxonomy of the spec (section 7). -/
inductive DumpError where
  | UnknownField (token dom : String)
  | UnknownGroup (token dom : String)
  | ConflictingSortDirection
  | NotApplicableForDomain (opt dom : String)
  | SelectFieldRequired (opt dom : String)
  | FieldDomainMismatch
  | SinkUnavailable (path cause : String)
deriving DecidableEq

/-- True when any row-scoped query option (filter, sort, rsort, non-zero
top) is set. -/
def rowScopedOptSet (o : GeneralOpt) : Bool :=
  o.filter.isSome || o.sort || o.rsort || decide (0 < o.top)

/-- Modelled from the spec: `validate(raw_options)` (section 4.4), with the
rules checked in the order the spec lists them — first the `sort`/`rsort`
mutual exclusion, then the row-scoped-option rule (`NotApplicableForDomain`
for System; a select field required for Process and Cgroup; the spec names
no error for the latter case, so it gets the dedicated constructor
`SelectFieldRequired`). -/
def validateOpts (dom : Domain) (hasSelect : Bool) (o : GeneralOpt) :
    Except DumpError Unit :=
  if o.sort && o.rsort then .error .ConflictingSortDirection
  else if rowScopedOptSet o then
    match dom with
    | .System =>
      .error (.NotApplicableForDomain "filter/sort/rsort/top" (domainName .System))
    | d =>
      if hasSelect then .ok ()
      else .error (.SelectFieldRequired "filter/sort/rsort/top" (domainName d))
  else .ok ()

/-- The `DumpCommand` enum of the source: `System` carries fields and
options; `Process` and `Cgroup` additionally carry the optional select
field. -/
inductive DumpCommand where
  | System (fields : Option (List SysField)) (opts : GeneralOpt)
  | Process (fields : Option (List ProcField)) (opts : GeneralOpt)
      (select : Option ProcField)
  | Cgroup (fields : Option (List CgroupField)) (opts : GeneralOpt)
      (select : Option CgroupField)

/-- Whether a parsed command carries a select field (the `System` variant
has no such field at all). -/
def DumpCommand.hasSelect : DumpCommand → Bool
  | .System _ _ => false
  | .Process _ _ s => s.isSome
  | .Cgroup _ _ s => s.isSome

/-- The domain of a parsed command. -/
def DumpCommand.domain : DumpCommand → Domain
  | .System _ _ => .System
  | .Process _ _ _ => .Process
  | .Cgroup _ _ _ => .Cgroup

/-- The general options of a parsed command. -/
def DumpCommand.opts : DumpCommand → GeneralOpt
  | .System _ o => o
  | .Process _ o _ => o
  | .Cgroup _ o _ => o

/-- Modelled from the spec: validation of a whole parsed command. -/
def validateCommand (c : DumpCommand) : Except DumpError Unit :=
  validateOpts c.domain c.hasSelect c.opts

/-- Modelled from the spec: when no output format is supplied the format
defaults to `Raw` (the source doc comment: "Default to raw"). -/
def effectiveOutputFormat (o : Option OutputFormat) : OutputFormat :=
  o.getD .Raw

/-- Substring test on the raw character lists (used to talk about what an
error message mentions). -/
def containsSub (pat : List Char) : List Char → Bool
  | [] => pat.isEmpty
  | c :: cs => pat.isPrefixOf (c :: cs) || containsSub pat cs

/-- Whether `pat` occurs as a contiguous substring of `s`. -/
def strContains (s pat : String) : Bool := containsSub pat.data s.data

/-- Whether validation failed with a `NotApplicableForDomain` error. -/
def isNotApplicableErr : Except DumpError Unit → Bool
  | .error (.NotApplicableForDomain _ _) => true
  | _ => false

/-- Options with no flag set (begin/end as in the spec's example). -/
def plainOpt : GeneralOpt :=
  ⟨false, false, false, "08:30:00", some "08:30:30", none, false, false, 0,
   none, none, none⟩

/-- Options with both `--default` and `--everything` set. -/
def everythingOpt : GeneralOpt :=
  ⟨true, true, false, "08:30:00", none, none, false, false, 0, none, none,
   none⟩

/-- Options with both `--sort` and `--rsort` set. -/
def bothSortOpt : GeneralOpt :=
  ⟨false, false, false, "08:30:00", none, none, true, true, 0, none, none,
   none⟩

/-- Options with only `--filter` set. -/
def filterOnlyOpt : GeneralOpt :=
  ⟨false, false, false, "08:30:00", none, some ⟨"below*"⟩, false, false, 0,
   none, none, none⟩

/-- Options of the spec's `dump process` example (`-O csv`). -/
def csvOpt : GeneralOpt :=
  ⟨false, false, false, "08:30:00", some "08:30:30", none, false, false, 0,
   none, some .Csv, none⟩

/-! ### Helper lemmas -/

theorem lookup_eq_none_of_not_mem {α β : Type} [BEq α] [LawfulBEq α]
    (l : List (α × β)) (k : α) (h : k ∉ l.map Prod.fst) : l.lookup k = none := by
  rw [List.lookup_eq_none_iff]
  intro p hp
  rw [bne_iff_ne]
  intro hk
  exact h (hk ▸ List.mem_map_of_mem Prod.fst hp)

theorem char_toLower_toLower (c : Char) : c.toLower.toLower = c.toLower := by
  unfold Char.toLower
  by_cases h : c.toNat ≥ 65 ∧ c.toNat ≤ 90
  · rw [if_pos h]
    have hv : (c.toNat + 32).isValidChar := Or.inl (by omega)
    have ht : (Char.ofNat (c.toNat + 32)).toNat = c.toNat + 32 := by
      rw [Char.ofNat, dif_pos hv]
      rfl
    rw [ht, if_neg (by omega)]
  · rw [if_neg h, if_neg h]

theorem toLowerStr_idem (s : String) : toLowerStr (toLowerStr s) = toLowerStr s := by
  unfold toLowerStr
  apply congrArg String.mk
  rw [List.map_map]
  exact List.map_congr_left (fun c _ => char_toLower_toLower c)

theorem from_str_table_sys :
    ∀ p ∈ sysFieldTable, SysField.from_str p.1 = .ok p.2 := by decide

theorem from_str_table_proc :
    ∀ p ∈ procFieldTable, ProcField.from_str p.1 = .ok p.2 := by decide

theorem from_str_table_cgroup :
    ∀ p ∈ cgroupFieldTable, CgroupField.from_str p.1 = .ok p.2 := by decide

theorem from_str_toOption_sys (s : String) :
    (SysField.from_str s).toOption = sysFieldTable.lookup (toLowerStr s) := by
  unfold SysField.from_str
  cases sysFieldTable.lookup (toLowerStr s) <;> rfl

theorem from_str_toOption_proc (s : String) :
    (ProcField.from_str s).toOption = procFieldTable.lookup (toLowerStr s) := by
  unfold ProcField.from_str
  cases procFieldTable.lookup (toLowerStr s) <;> rfl

theorem from_str_toOption_cgroup (s : String) :
    (CgroupField.from_str s).toOption = cgroupFieldTable.lookup (toLowerStr s) := by
  unfold CgroupField.from_str
  cases cgroupFieldTable.lookup (toLowerStr s) <;> rfl

theorem from_str_toOption_format (s : String) :
    (OutputFormat.from_str s).toOption = outputFormatTable.lookup (toLowerStr s) := by
  unfold OutputFormat.from_str
  cases outputFormatTable.lookup (toLowerStr s) <;> rfl

/-! ### Claims -/

/-- C1: for every domain (System, Process, Cgroup) and every token of that
domain's registry table, `from_str` succeeds with the table's field tag, and
resolution is case-insensitive: the uppercase variant of the token resolves
to the same tag. -/
theorem claim1_registry_resolution_case_insensitive :
    (∀ p ∈ sysFieldTable,
      SysField.from_str p.1 = .ok p.2 ∧
      SysField.from_str (toUpperStr p.1) = .ok p.2) ∧
    (∀ p ∈ procFieldTable,
      ProcField.from_str p.1 = .ok p.2 ∧
      ProcField.from_str (toUpperStr p.1) = .ok p.2) ∧
    (∀ p ∈ cgroupFieldTable,
      CgroupField.from_str p.1 = .ok p.2 ∧
      CgroupField.from_str (toUpperStr p.1) = .ok p.2) := by
  refine ⟨?_, ?_, ?_⟩ <;> decide

/-- Witness for C1 at the System token `cpu`. -/
theorem claim1_witness :
    SysField.from_str "cpu" = .ok SysField.Cpu ∧
    SysField.from_str (toUpperStr "cpu") = .ok SysField.Cpu :=
  claim1_registry_resolution_case_insensitive.1 ("cpu", SysField.Cpu) (by decide)

set_option maxRecDepth 16384 in
/-- C5: in every domain's registry, every field tag is reachable from at
least one string token (the token-to-tag mapping is surjective onto the
tag type), and the (case-insensitive) tokens are pairwise distinct within a
domain. -/
theorem claim5_registry_invariants :
    ((∀ f : SysField, ∃ p ∈ sysFieldTable, SysField.from_str p.1 = .ok f) ∧
      (sysFieldTable.map (fun p => toLowerStr p.1)).Nodup) ∧
    ((∀ f : ProcField, ∃ p ∈ procFieldTable, ProcField.from_str p.1 = .ok f) ∧
      (procFieldTable.map (fun p => toLowerStr p.1)).Nodup) ∧
    ((∀ f : CgroupField, ∃ p ∈ cgroupFieldTable, CgroupField.from_str p.1 = .ok f) ∧
      (cgroupFieldTable.map (fun p => toLowerStr p.1)).Nodup) := by
  have hsys : ∀ f : SysField, ∃ p ∈ sysFieldTable, p.2 = f := by decide
  have hproc : ∀ f : ProcField, ∃ p ∈ procFieldTable, p.2 = f := by decide
  have hcg : ∀ f : CgroupField, ∃ p ∈ cgroupFieldTable, p.2 = f := by decide
  refine ⟨⟨?_, by decide⟩, ⟨?_, by decide⟩, ⟨?_, by decide⟩⟩
  · intro f
    obtain ⟨p, hp, he⟩ := hsys f
    exact ⟨p, hp, he ▸ from_str_table_sys p hp⟩
  · intro f
    obtain ⟨p, hp, he⟩ := hproc f
    exact ⟨p, hp, he ▸ from_str_table_proc p hp⟩
  · intro f
    obtain ⟨p, hp, he⟩ := hcg f
    exact ⟨p, hp, he ▸ from_str_table_cgroup p hp⟩

/-- C9: token validity is decided per domain by that domain's own table:
`pid` and `io_total` resolve for Process but fail for System; `cpu`, `mem`
and `io` resolve in all three domains to dedicated tags; `pressure`
resolves only for Cgroup and fails for System and Process. -/
theorem claim9_per_domain_vocabulary :
    ProcField.from_str "pid" = .ok ProcField.Pid ∧
    (SysField.from_str "pid").toOption = none ∧
    ProcField.from_str "io_total" = .ok ProcField.IoTotal ∧
    (SysField.from_str "io_total").toOption = none ∧
    SysField.from_str "cpu" = .ok SysField.Cpu ∧
    ProcField.from_str "cpu" = .ok ProcField.Cpu ∧
    CgroupField.from_str "cpu" = .ok CgroupField.Cpu ∧
    SysField.from_str "mem" = .ok SysField.Mem ∧
    ProcField.from_str "mem" = .ok ProcField.Mem ∧
    CgroupField.from_str "mem" = .ok CgroupField.Mem ∧
    SysField.from_str "io" = .ok SysField.Io ∧
    ProcField.from_str "io" = .ok ProcField.Io ∧
    CgroupField.from_str "io" = .ok CgroupField.Io ∧
    CgroupField.from_str "pressure" = .ok CgroupField.Pressure ∧
    (SysField.from_str "pressure").toOption = none ∧
    (ProcField.from_str "pressure").toOption = none := by decide

/-- C10: for every domain (and the output-format parser) and every input
string, parsing the string and parsing its lowercase form accept the same
inputs and return the same tag (both captured by equality of the parses
seen as options); parsing is a total function of the input string by
construction. -/
theorem claim10_parse_lowercase_invariant : ∀ s : String,
    (SysField.from_str s).toOption = (SysField.from_str (toLowerStr s)).toOption ∧
    (ProcField.from_str s).toOption = (ProcField.from_str (toLowerStr s)).toOption ∧
    (CgroupField.from_str s).toOption = (CgroupField.from_str (toLowerStr s)).toOption ∧
    (OutputFormat.from_str s).toOption = (OutputFormat.from_str (toLowerStr s)).toOption := by
  intro s
  refine ⟨?_, ?_, ?_, ?_⟩
  · rw [from_str_toOption_sys, from_str_toOption_sys, toLowerStr_idem]
  · rw [from_str_toOption_proc, from_str_toOption_proc, toLowerStr_idem]
  · rw [from_str_toOption_cgroup, from_str_toOption_cgroup, toLowerStr_idem]
  · rw [from_str_toOption_format, from_str_toOption_format, toLowerStr_idem]

set_option maxRecDepth 16384 in
/-- C2: with the `everything` flag set, field-list resolution returns the
domain's full canonical field list — every field tag of the domain, each
exactly once, in canonical (table) order — for every token sequence and
regardless of the `default` flag. -/
theorem claim2_everything_full_list :
    ∀ (tokens : List String) (o : GeneralOpt), o.everything = true →
    (sysResolveFields tokens o = .ok SysField.all ∧
     procResolveFields tokens o = .ok ProcField.all ∧
     cgroupResolveFields tokens o = .ok CgroupField.all) ∧
    (SysField.all.Nodup ∧ ∀ f : SysField, f ∈ SysField.all) ∧
    (ProcField.all.Nodup ∧ ∀ f : ProcField, f ∈ ProcField.all) ∧
    (CgroupField.all.Nodup ∧ ∀ f : CgroupField, f ∈ CgroupField.all) := by
  intro tokens o h
  refine ⟨⟨?_, ?_, ?_⟩, ⟨by decide, by decide⟩, ⟨by decide, by decide⟩,
    ⟨by decide, by decide⟩⟩
  · simp [sysResolveFields, h]
  · simp [procResolveFields, h]
  · simp [cgroupResolveFields, h]

/-- Witness for C2: `everything` (set together with `default`) yields the
full System list even though a bogus token was passed. -/
theorem claim2_witness :
    sysResolveFields ["bogus"] everythingOpt = .ok SysField.all :=
  ((claim2_everything_full_list ["bogus"] everythingOpt rfl).1).1

/-- C3 counterexample: for the unknown token `zzz` in the System domain the
parse error is exactly `Fail to parse zzz`; it names the token but does not
mention the domain's name (neither `system` nor `System` occurs in it), so
the error does not carry the domain name. -/
theorem claim3_counterexample :
    SysField.from_str "zzz" = .error "Fail to parse zzz" ∧
    toLowerStr "zzz" ∉ sysFieldTable.map Prod.fst ∧
    strContains "Fail to parse zzz" "system" = false ∧
    strContains "Fail to parse zzz" "System" = false := by decide

/-- C3 amended: for every domain and every token whose lowercase form is
not in that domain's registry table (and hence not an aggregate-group name
either, since group names are registry tokens), resolution — both the raw
`from_str` and the field-list resolver with no overriding flags — fails
with the error `Fail to parse {token}`, which names that exact token but
carries no domain name. -/
theorem claim3_unknown_token_error :
    ∀ (s : String) (o : GeneralOpt), o.everything = false → o.default = false →
    (toLowerStr s ∉ sysFieldTable.map Prod.fst →
      SysField.from_str s = .error ("Fail to parse " ++ s) ∧
      sysResolveFields [s] o = .error ("Fail to parse " ++ s)) ∧
    (toLowerStr s ∉ procFieldTable.map Prod.fst →
      ProcField.from_str s = .error ("Fail to parse " ++ s) ∧
      procResolveFields [s] o = .error ("Fail to parse " ++ s)) ∧
    (toLowerStr s ∉ cgroupFieldTable.map Prod.fst →
      CgroupField.from_str s = .error ("Fail to parse " ++ s) ∧
      cgroupResolveFields [s] o = .error ("Fail to parse " ++ s)) := by
  intro s o he hd
  refine ⟨?_, ?_, ?_⟩
  · intro hmem
    have h1 : sysFieldTable.lookup (toLowerStr s) = none :=
      lookup_eq_none_of_not_mem _ _ hmem
    have hfs : SysField.from_str s = .error ("Fail to parse " ++ s) := by
      unfold SysField.from_str
      rw [h1]
    have hg : (sysGroupTable o.detail).map Prod.fst = ["cpu", "mem", "io"] := rfl
    have h2 : sysExpand s o.detail = none := by
      unfold sysExpand
      apply lookup_eq_none_of_not_mem
      rw [hg]
      intro hk
      simp only [List.mem_cons, List.not_mem_nil, or_false] at hk
      rcases hk with h | h | h <;> (rw [h] at hmem; exact hmem (by decide))
    refine ⟨hfs, ?_⟩
    have h3 : sysResolveFields [s] o = sysResolveTokens o.detail [s] := by
      simp [sysResolveFields, he, hd]
    rw [h3]
    simp [sysResolveTokens, h2, hfs]
  · intro hmem
    have h1 : procFieldTable.lookup (toLowerStr s) = none :=
      lookup_eq_none_of_not_mem _ _ hmem
    have hfs : ProcField.from_str s = .error ("Fail to parse " ++ s) := by
      unfold ProcField.from_str
      rw [h1]
    have hg : (procGroupTable o.detail).map Prod.fst = ["cpu", "mem", "io"] := rfl
    have h2 : procExpand s o.detail = none := by
      unfold procExpand
      apply lookup_eq_none_of_not_mem
      rw [hg]
      intro hk
      simp only [List.mem_cons, List.not_mem_nil, or_false] at hk
      rcases hk with h | h | h <;> (rw [h] at hmem; exact hmem (by decide))
    refine ⟨hfs, ?_⟩
    have h3 : procResolveFields [s] o = procResolveTokens o.detail [s] := by
      simp [procResolveFields, he, hd]
    rw [h3]
    simp [procResolveTokens, h2, hfs]
  · intro hmem
    have h1 : cgroupFieldTable.lookup (toLowerStr s) = none :=
      lookup_eq_none_of_not_mem _ _ hmem
    have hfs : CgroupField.from_str s = .error ("Fail to parse " ++ s) := by
      unfold CgroupField.from_str
      rw [h1]
    have hg : (cgroupGroupTable o.detail).map Prod.fst =
        ["cpu", "mem", "io", "pressure"] := rfl
    have h2 : cgroupExpand s o.detail = none := by
      unfold cgroupExpand
      apply lookup_eq_none_of_not_mem
      rw [hg]
      intro hk
      simp only [List.mem_cons, List.not_mem_nil, or_false] at hk
      rcases hk with h | h | h | h <;> (rw [h] at hmem; exact hmem (by decide))
    refine ⟨hfs, ?_⟩
    have h3 : cgroupResolveFields [s] o = cgroupResolveTokens o.detail [s] := by
      simp [cgroupResolveFields, he, hd]
    rw [h3]
    simp [cgroupResolveTokens, h2, hfs]

/-- Witness for C3 (amended) at the System token `zzz` with no flags. -/
theorem claim3_witness :
    SysField.from_str "zzz" = .error ("Fail to parse " ++ "zzz") ∧
    sysResolveFields ["zzz"] plainOpt = .error ("Fail to parse " ++ "zzz") :=
  (claim3_unknown_token_error "zzz" plainOpt rfl rfl).1 (by decide)

/-- C4: whenever both the `sort` and the `rsort` flag are set, validation
fails with `ConflictingSortDirection`, for every domain and select state. -/
theorem claim4_conflicting_sort_direction :
    ∀ (dom : Domain) (hasSelect : Bool) (o : GeneralOpt),
    o.sort = true → o.rsort = true →
    validateOpts dom hasSelect o = .error .ConflictingSortDirection := by
  intro dom hs o h1 h2
  simp [validateOpts, h1, h2]

/-- Witness for C4 with both sort flags set on the System domain. -/
theorem claim4_witness :
    validateOpts Domain.System false bothSortOpt =
      .error DumpError.ConflictingSortDirection :=
  claim4_conflicting_sort_direction Domain.System false bothSortOpt rfl rfl

/-- C6: for the Process domain without `detail`, the token list
`[comm, cpu, io_total]` resolves to `[Comm, CpuTotalPct, IoTotal]` (the
`cpu` bundle expands to just `CpuTotalPct`), and the output-format token
`csv` parses to `Csv`. -/
theorem claim6_process_example :
    csvOpt.detail = false ∧
    procResolveFields ["comm", "cpu", "io_total"] csvOpt =
      .ok [ProcField.Comm, ProcField.CpuTotalPct, ProcField.IoTotal] ∧
    OutputFormat.from_str "csv" = .ok OutputFormat.Csv := by decide

/-- C7: output-format parsing accepts exactly the tokens `raw`, `csv`,
`json` and `kv`, case-insensitively, mapping them to `Raw`, `Csv`, `Json`
and `KeyVal` (the key-value format); every other string is rejected with a
parse error; an absent format defaults to `Raw`. -/
theorem claim7_output_format :
    (∀ s : String,
      (toLowerStr s = "raw" → OutputFormat.from_str s = .ok OutputFormat.Raw) ∧
      (toLowerStr s = "csv" → OutputFormat.from_str s = .ok OutputFormat.Csv) ∧
      (toLowerStr s = "json" → OutputFormat.from_str s = .ok OutputFormat.Json) ∧
      (toLowerStr s = "kv" → OutputFormat.from_str s = .ok OutputFormat.KeyVal) ∧
      (toLowerStr s ∉ (["raw", "csv", "json", "kv"] : List String) →
        OutputFormat.from_str s = .error ("Fail to parse " ++ s))) ∧
    effectiveOutputFormat none = OutputFormat.Raw := by
  refine ⟨?_, rfl⟩
  intro s
  refine ⟨?_, ?_, ?_, ?_, ?_⟩ <;> intro h
  · unfold OutputFormat.from_str
    rw [h]
    rfl
  · unfold OutputFormat.from_str
    rw [h]
    rfl
  · unfold OutputFormat.from_str
    rw [h]
    rfl
  · unfold OutputFormat.from_str
    rw [h]
    rfl
  · have h1 : outputFormatTable.lookup (toLowerStr s) = none :=
      lookup_eq_none_of_not_mem _ _ h
    unfold OutputFormat.from_str
    rw [h1]

/-- Witness for C7: the uppercase token `CSV` parses to `Csv`, and `xml`
is rejected. -/
theorem claim7_witness :
    OutputFormat.from_str "CSV" = .ok OutputFormat.Csv ∧
    OutputFormat.from_str "xml" = .error ("Fail to parse " ++ "xml") :=
  ⟨((claim7_output_format.1 "CSV").2.1) (by decide),
   ((claim7_output_format.1 "xml").2.2.2.2) (by decide)⟩

/-- C8 counterexample: on the System domain with both `sort` and `rsort`
set (a row-scoped input), validation fails with `ConflictingSortDirection`
— not with `NotApplicableForDomain` as the claim demands for every such
input. -/
theorem claim8_counterexample :
    rowScopedOptSet bothSortOpt = true ∧
    validateOpts Domain.System false bothSortOpt =
      .error DumpError.ConflictingSortDirection ∧
    isNotApplicableErr (validateOpts Domain.System false bothSortOpt) = false := by
  decide

/-- C8 amended: for the System domain, any input that sets `filter`,
`sort`, `rsort` or a non-zero `top` fails validation; the error is
`NotApplicableForDomain` unless both sort flags are set, in which case the
earlier `ConflictingSortDirection` check fires first.  The `System`
command carries no select field. -/
theorem claim8_system_not_applicable :
    (∀ o : GeneralOpt, rowScopedOptSet o = true →
      validateOpts Domain.System false o ≠ .ok () ∧
      ((o.sort && o.rsort) = false →
        validateOpts Domain.System false o =
          .error (.NotApplicableForDomain "filter/sort/rsort/top"
            (domainName Domain.System)))) ∧
    (∀ fields opts, (DumpCommand.System fields opts).hasSelect = false) ∧
    (∀ fields opts, validateCommand (DumpCommand.System fields opts) =
      validateOpts Domain.System false opts) := by
  refine ⟨?_, fun fields opts => rfl, fun fields opts => rfl⟩
  intro o h
  by_cases hc : (o.sort && o.rsort) = true
  · constructor
    · simp [validateOpts, hc]
    · intro hf
      rw [hf] at hc
      exact absurd hc (by decide)
  · have hc2 : (o.sort && o.rsort) = false := by
      cases hb : (o.sort && o.rsort)
      · rfl
      · exact absurd hb hc
    constructor
    · simp [validateOpts, hc2, h]
    · intro _
      simp [validateOpts, hc2, h]

/-- Witness for C8 (amended): a System dump with only `--filter` set fails
with `NotApplicableForDomain`. -/
theorem claim8_witness :
    validateOpts Domain.System false filterOnlyOpt =
      .error (.NotApplicableForDomain "filter/sort/rsort/top"
        (domainName Domain.System)) :=
  ((claim8_system_not_applicable.1 filterOnlyOpt rfl).2) rfl

end BelowDump
